import Mathlib

/-!
Verification development for the adaptive feature-selection stage of the
aloam_slam repository (src/src/feature_selection.cpp and
src/include/aloam_slam/feature_selection.h).

Scalars of the C++ code (float/double) are embedded as exact rationals;
the Euclidean-norm comparison of getNeighborsInBB
(`(neighbor - point).norm() < max_range`) is embedded by the equivalent
squared comparison `normSq (neighbor - point) < max_range * |max_range|`
(for every real r, `‖v‖ < r` iff `‖v‖² < r * |r|`).  The value of a norm
that flows into arithmetic (the gradient magnitude of estimateGradients)
is kept abstract as a function parameter `nrm : V3 → ℚ`; theorems either
hold for every such function or are instantiated at a function that agrees
with the Euclidean norm on all vectors arising in the concrete input.
Fallible C++ operations (`std::vector::at` which throws,
`std::vector::back` on an empty vector which is undefined behaviour) are
embedded in the `Option` monad, `none` standing for the fault.
-/

/-- 3D vector with rational coordinates (embeds Eigen::Vector3f). -/
structure V3 where
  x : ℚ
  y : ℚ
  z : ℚ
deriving DecidableEq

def V3.add (a b : V3) : V3 := ⟨a.x + b.x, a.y + b.y, a.z + b.z⟩

def V3.sub (a b : V3) : V3 := ⟨a.x - b.x, a.y - b.y, a.z - b.z⟩

def V3.smul (c : ℚ) (a : V3) : V3 := ⟨c * a.x, c * a.y, c * a.z⟩

def V3.zero : V3 := ⟨0, 0, 0⟩

/-- Squared Euclidean norm. -/
def normSq (v : V3) : ℚ := v.x ^ 2 + v.y ^ 2 + v.z ^ 2

/-- A point of the organized cloud (embeds pcl::PointXYZI). -/
structure Pt where
  x : ℚ
  y : ℚ
  z : ℚ
  intensity : ℚ
deriving DecidableEq

instance : Inhabited Pt := ⟨⟨0, 0, 0, 0⟩⟩

def Pt.pos (p : Pt) : V3 := ⟨p.x, p.y, p.z⟩

/-- Modelled from the spec: the feature-extraction collaborator
(`ExtractedFeatures`, declared outside the sources at hand).  Per §6 of the
spec it provides an organized cloud with per-index position/intensity
(`cloud_filt`), a per-index (row, column) address in the scan grid
(`getRowColInRawData`), a per-index scalar range (`getRange`), the raw scan
width (`cloud_raw->width`), the input corner/surface batches as clouds
(`getLessSharpCorners` / `getLessFlatSurfs`), and an on-demand builder for
the dense row/column→index table (`buildOrderedFeatureTable`). -/
structure ExtractedFeatures where
  cloud_filt : List Pt
  cells : List (ℕ × ℕ)
  ranges : List ℚ
  nRows : ℕ
  width : ℕ
  less_sharp_corners : List Pt
  less_flat_surfs : List Pt
deriving DecidableEq

/-- Modelled from the spec: per-index (row, column) address in the raw scan. -/
def getRowColInRawData (ef : ExtractedFeatures) (idx : ℕ) : ℕ × ℕ :=
  ef.cells.getD idx (0, 0)

/-- Modelled from the spec: per-index range (distance from the sensor origin). -/
def getRange (ef : ExtractedFeatures) (idx : ℕ) : ℚ :=
  ef.ranges.getD idx 0

/-- Modelled from the spec: dense row×column table mapping each cell to the
index of the feature occupying it, with the sentinel -1 for absent cells. -/
def buildOrderedFeatureTable (ef : ExtractedFeatures) (indices_in_filt : List (List ℕ)) :
    List (List Int) :=
  (List.range ef.nRows).map fun r =>
    (List.range ef.width).map fun c =>
      match (indices_in_filt.flatten).find? (fun idx => getRowColInRawData ef idx == (r, c)) with
      | some idx => Int.ofNat idx
      | none => -1

/-- The constant NEIGH_IDX_PREC_RANGE_RES = 0.2f of feature_selection.h. -/
def NEIGH_IDX_PREC_RANGE_RES : ℚ := 1 / 5

/-- FeatureSelection::getNearestNeighborLimits (feature_selection.cpp:523-530):
bucket lookup at floor(point_distance / NEIGH_IDX_PREC_RANGE_RES), empty
envelope when the index is at or beyond the built table.  (A negative float
index would convert to a huge unsigned value in the C++ and likewise return
the empty envelope.) -/
def getNearestNeighborLimits (tbl : List (List (ℕ × ℕ))) (point_distance : ℚ) :
    List (ℕ × ℕ) :=
  let fidx : ℤ := Int.floor (point_distance / NEIGH_IDX_PREC_RANGE_RES)
  if 0 ≤ fidx ∧ fidx.toNat < tbl.length then tbl.getD fidx.toNat [] else []

/-- Entry of the dense ordered table at cell (i, j); the loops of
getNeighborsInBB only touch i < table size and j < row size, so the checked
`.at` accesses of the C++ cannot throw here and `getD` is exact. -/
def cellEntry (table : List (List Int)) (i j : ℕ) : Int :=
  (table.getD i []).getD j (-1)

/-- Body of the innermost loop of FeatureSelection::getNeighborsInBB
(feature_selection.cpp:340-358): the contribution of cell (i, j) to the
candidate's neighbor list - nothing for the candidate's own cell or an empty
cell, the neighbor position when the exact 3D distance to the candidate is
strictly below max_range. -/
def cellContrib (ef : ExtractedFeatures) (table : List (List Int)) (max_range : ℚ)
    (idx this_r this_c : ℕ) (i j : ℕ) : Option V3 :=
  if i = this_r ∧ j = this_c then none
  else
    let neighbor_idx := cellEntry table i j
    if neighbor_idx = -1 then none
    else
      let neighbor := (ef.cloud_filt.getD neighbor_idx.toNat default).pos
      let point := (ef.cloud_filt.getD idx default).pos
      if normSq (V3.sub neighbor point) < max_range * |max_range| then some neighbor
      else none

/-- Inner column loop of FeatureSelection::getNeighborsInBB
(feature_selection.cpp:337-359) for one row i of the search window: columns
max(0, this_c - h_idx) to min(cloud_width, this_c + h_idx + 1). -/
def nbbCols (ef : ExtractedFeatures) (table : List (List Int)) (cloud_width : ℕ)
    (max_range : ℚ) (idx this_r this_c : ℕ) (i h_idx : ℕ) : List V3 :=
  let col_min : ℕ := this_c - h_idx
  let col_max : ℕ := min cloud_width (this_c + h_idx + 1)
  (List.range' col_min (col_max - col_min)).filterMap
    (cellContrib ef table max_range idx this_r this_c i)

/-- Row loop of FeatureSelection::getNeighborsInBB (feature_selection.cpp:
330-360): for each row i of the window, dv = |i - this_r|, the envelope entry
row_col_idxs.at(dv) is fetched (the checked access throws - none - when dv is
out of range) and the column loop contributes its neighbors in order. -/
def nbbRows (env : List (ℕ × ℕ)) (ef : ExtractedFeatures) (table : List (List Int))
    (cloud_width : ℕ) (max_range : ℚ) (idx this_r this_c : ℕ) :
    List ℕ → Option (List V3)
  | [] => some []
  | i :: rest =>
    let dv : ℕ := max (i - this_r) (this_r - i)
    match env[dv]? with
    | none => none
    | some pr =>
      match nbbRows env ef table cloud_width max_range idx this_r this_c rest with
      | none => none
      | some tail => some (nbbCols ef table cloud_width max_range idx this_r this_c i pr.2 ++ tail)

/-- Per-candidate body of FeatureSelection::getNeighborsInBB
(feature_selection.cpp:319-360): fetch the candidate's cell and range, fetch
the angular envelope, take max_v_idx from `.back()` of the envelope (undefined
behaviour - none - when the envelope is empty), and scan the row window
max(0, this_r - max_v_idx) to min(cloud_height, this_r + max_v_idx + 1). -/
def nbbOf (tbl : List (List (ℕ × ℕ))) (ef : ExtractedFeatures) (table : List (List Int))
    (cloud_width cloud_height : ℕ) (max_range : ℚ) (idx : ℕ) : Option (List V3) :=
  let rc := getRowColInRawData ef idx
  let this_r := rc.1
  let this_c := rc.2
  let d := getRange ef idx
  let row_col_idxs := getNearestNeighborLimits tbl d
  match row_col_idxs.getLast? with
  | none => none
  | some lastPair =>
    let max_v_idx := lastPair.1
    let row_min : ℕ := this_r - max_v_idx
    let row_max : ℕ := min cloud_height (this_r + max_v_idx + 1)
    nbbRows row_col_idxs ef table cloud_width max_range idx this_r this_c
      (List.range' row_min (row_max - row_min))

/-- FeatureSelection::getNeighborsInBB (feature_selection.cpp:298-373):
builds the dense ordered table and collects, for every candidate index in row
order, the list of neighbor 3D positions within the window bounded by the
angular envelope and accepted by the exact distance test. -/
def getNeighborsInBB (tbl : List (List (ℕ × ℕ))) (ef : ExtractedFeatures)
    (indices_in_filt : List (List ℕ)) (max_range : ℚ) : Option (List (ℕ × List V3)) :=
  let table := buildOrderedFeatureTable ef indices_in_filt
  let cloud_width := ef.width
  let cloud_height := table.length
  (indices_in_filt.flatten).mapM fun idx =>
    (nbbOf tbl ef table cloud_width cloud_height max_range idx).map fun l => (idx, l)

/-- Reading `neighbors[idx]` of the per-call neighbor map (an absent key
default-constructs the empty vector in the C++ unordered_map). -/
def lookupNb (m : List (ℕ × List V3)) (idx : ℕ) : List V3 :=
  match m.find? (fun pr => pr.1 == idx) with
  | some pr => pr.2
  | none => []

/-- Gradient magnitude of one grouped feature (feature_selection.cpp:232-240):
norm of the sum of (neighbor - point) displacement vectors divided by the
neighbor count (the vector is averaged before the norm is taken). -/
def gmag (nrm : V3 → ℚ) (cloud : List Pt) (nb : List V3) (idx : ℕ) : ℚ :=
  let point_xyz := (cloud.getD idx default).pos
  let gradient := nb.foldl (fun g n => V3.add g (V3.sub n point_xyz)) V3.zero
  nrm (V3.smul (1 / (nb.length : ℚ)) gradient)

/-- First pass of FeatureSelection::estimateGradients (feature_selection.cpp:
222-248), written as a structural recursion over the flattened candidate list:
features with at least one neighbor are collected with their gradient
magnitude and the running maximum (std::fmax, initial 0.0f) is tracked;
features with no neighbors are collected as standalone, both in input order. -/
def gradPass (nrm : V3 → ℚ) (cloud : List Pt) (nbMap : List (ℕ × List V3)) :
    List ℕ → List ℕ × List (ℕ × ℚ) × ℚ
  | [] => ([], [], 0)
  | idx :: rest =>
    let res := gradPass nrm cloud nbMap rest
    let nb := lookupNb nbMap idx
    if 0 < nb.length then
      (res.1, (idx, gmag nrm cloud nb idx) :: res.2.1, max (gmag nrm cloud nb idx) res.2.2)
    else
      (idx :: res.1, res.2.1, res.2.2)

/-- Insertion step of the descending sort. -/
def insertDesc (a : ℕ × ℚ) : List (ℕ × ℚ) → List (ℕ × ℚ)
  | [] => [a]
  | b :: t => if b.2 < a.2 then a :: b :: t else b :: insertDesc a t

/-- The descending sort of the gradient records (feature_selection.cpp:274,
std::sort with comparator `i.second > j.second`); ties may be emitted in any
order by std::sort, and no claim below depends on the order of ties. -/
def sortDesc : List (ℕ × ℚ) → List (ℕ × ℚ)
  | [] => []
  | a :: t => insertDesc a (sortDesc t)

/-- FeatureSelection::estimateGradients (feature_selection.cpp:196-281).
Returns (standalone indices, sorted normalized gradient records, mean,
squared standard deviation).  The C++ returns
grad_norm_std = sqrt(grad_norm_std / float(features_count)); the radicand is
returned here and `gradStd` below applies the real square root.
The guard `features_count < total` embeds the checked writes
`gradient_norms.at(grouped_features_count++)` /
`standalone_points_indices.at(standalone_features_count++)` into vectors
preallocated with features_count entries. -/
def estimateGradients (tbl : List (List (ℕ × ℕ))) (nrm : V3 → ℚ) (ef : ExtractedFeatures)
    (features_count : ℕ) (indices_in_filt : List (List ℕ)) (search_radius : ℚ) :
    Option (List ℕ × List (ℕ × ℚ) × ℚ × ℚ) :=
  match getNeighborsInBB tbl ef indices_in_filt search_radius with
  | none => none
  | some nbMap =>
    let idxs := indices_in_filt.flatten
    if features_count < idxs.length then none
    else
      let p := gradPass nrm ef.cloud_filt nbMap idxs
      let standalone_points_indices := p.1
      let grad_norm_max := p.2.2
      let normalized := p.2.1.map fun pr => (pr.1, pr.2 / grad_norm_max)
      let grad_norm_mean := (normalized.map fun pr => pr.2).sum / (normalized.length : ℚ)
      let grad_norm_stdSq :=
        ((normalized.map fun pr => (pr.2 - grad_norm_mean) ^ 2).sum) / (features_count : ℚ)
      some (standalone_points_indices, sortDesc normalized, grad_norm_mean, grad_norm_stdSq)

/-- The standard deviation the C++ returns: square root of the radicand
carried through the rational pipeline. -/
noncomputable def gradStd (stdSq : ℚ) : ℝ := Real.sqrt (stdSq : ℝ)

/-- FeatureSelection::selectFeaturesFromCloudByGradient (feature_selection.cpp:
135-192).  Empty batch: empty result with sentinel statistics -1.  Otherwise
the cutoff is `gradients.at(floor(percentile * gradients.size()))` - an
UNCLAMPED checked access (none when out of range); the output cloud is all
standalone features followed by the grouped features (in sorted order) whose
normalized gradient is >= the cutoff; gradient_norms_all holds 1.0 for each
standalone feature, then the sorted normalized gradients (the vector is
preallocated with features_count zeros and never shrunk). -/
def selectFeaturesFromCloudByGradient (tbl : List (List (ℕ × ℕ))) (nrm : V3 → ℚ)
    (ef : ExtractedFeatures) (features_count : ℕ) (indices_in_filt : List (List ℕ))
    (search_radius percentile : ℚ) : Option (List Pt × List ℚ × ℚ × ℚ × ℚ) :=
  if features_count = 0 then some ([], [], -1, -1, -1)
  else
    match estimateGradients tbl nrm ef features_count indices_in_filt search_radius with
    | none => none
    | some r =>
      let standalone_points_indices := r.1
      let gradients := r.2.1
      let cutIdx : ℤ := Int.floor (percentile * (gradients.length : ℚ))
      match (if 0 ≤ cutIdx then gradients[cutIdx.toNat]? else none) with
      | none => none
      | some cpr =>
        let grad_cutoff_thrd := cpr.2
        let standalonePts :=
          standalone_points_indices.map fun i => ef.cloud_filt.getD i default
        let selectedGrouped :=
          (gradients.filter fun g => decide (grad_cutoff_thrd ≤ g.2)).map fun g =>
            ef.cloud_filt.getD g.1 default
        let gradient_norms_all :=
          standalone_points_indices.map (fun _ => (1 : ℚ)) ++ gradients.map (fun g => g.2) ++
            List.replicate (features_count - standalone_points_indices.length - gradients.length) 0
        some (standalonePts ++ selectedGrouped, gradient_norms_all, r.2.2.1, r.2.2.2,
          grad_cutoff_thrd)

/-- FeatureSelection::estimateResolution (feature_selection.cpp:285-294):
plain linear interpolation min_res + percent * (max_res - min_res); the
sorted-gradient argument is unused. -/
def estimateResolution (percent : ℚ) (fnc_sorted : List ℚ) (min_res max_res : ℚ) : ℚ :=
  min_res + percent * (max_res - min_res)

/-- Persistent state and configuration of the FeatureSelection class
(feature_selection.h:53-73): the two adaptive resolution scalars, their
bounds, the enable flag, the keep-percentiles, and the precomputed angular
table _neigh_idxs_rows_cols. -/
structure FSState where
  resolution_corners : ℚ
  resolution_surfs : ℚ
  resolution_corners_min : ℚ
  resolution_corners_max : ℚ
  resolution_surfs_min : ℚ
  resolution_surfs_max : ℚ
  features_selection_enabled : Bool
  corners_keep_percentile : ℚ
  surfs_keep_percentile : ℚ
  neigh_idxs_rows_cols : List (List (ℕ × ℕ))

/-- FeatureSelection::selectFeatures (feature_selection.cpp:70-131), with the
mutable class state passed explicitly.  Disabled: pass the input batches
through and report the current resolutions, leaving the state unchanged.
Enabled: run the corner pipeline (search radius = current corner resolution,
corner percentile) and the surface pipeline, update both resolution scalars
via estimateResolution from the cutoffs, and return the selected clouds with
the new resolutions.  Diagnostics assembly and best-effort publication have
no effect on the returned data and are not modelled. -/
def selectFeatures (st : FSState) (nrm : V3 → ℚ) (ef : ExtractedFeatures)
    (corner_count : ℕ) (indices_corners : List (List ℕ))
    (surf_count : ℕ) (indices_surfs : List (List ℕ)) :
    Option (FSState × List Pt × List Pt × ℚ × ℚ) :=
  if st.features_selection_enabled = false then
    some (st, ef.less_sharp_corners, ef.less_flat_surfs, st.resolution_corners,
      st.resolution_surfs)
  else
    match selectFeaturesFromCloudByGradient st.neigh_idxs_rows_cols nrm ef corner_count
        indices_corners st.resolution_corners st.corners_keep_percentile with
    | none => none
    | some rc =>
      match selectFeaturesFromCloudByGradient st.neigh_idxs_rows_cols nrm ef surf_count
          indices_surfs st.resolution_surfs st.surfs_keep_percentile with
      | none => none
      | some rs =>
        let new_res_corners :=
          estimateResolution rc.2.2.2.2 rc.2.1 st.resolution_corners_min
            st.resolution_corners_max
        let new_res_surfs :=
          estimateResolution rs.2.2.2.2 rs.2.1 st.resolution_surfs_min st.resolution_surfs_max
        let st2 : FSState :=
          ⟨new_res_corners, new_res_surfs, st.resolution_corners_min, st.resolution_corners_max,
            st.resolution_surfs_min, st.resolution_surfs_max, st.features_selection_enabled,
            st.corners_keep_percentile, st.surfs_keep_percentile, st.neigh_idxs_rows_cols⟩
        some (st2, rc.1, rs.1, new_res_corners, new_res_surfs)

/-- The spec's oracle (§8): brute-force exhaustive Euclidean radius search
over every valid cell of the grid, excluding the candidate's own cell,
accepting strictly-less-than the search radius.  Stated from the spec's
words for the refinement claim C1. -/
def bruteNeighbors (ef : ExtractedFeatures) (table : List (List Int)) (max_range : ℚ)
    (idx : ℕ) : List V3 :=
  let rc := getRowColInRawData ef idx
  ((List.range table.length).map fun i =>
    (List.range (table.getD i []).length).filterMap
      (cellContrib ef table max_range idx rc.1 rc.2 i)).flatten

/-!
The angular lookup table built by the FeatureSelection constructor
(feature_selection.cpp:30-56), embedded over the reals.  The constants are
HFOV_RESOLUTION and VFOV_RESOLUTION of feature_selection.h:65-66, the fixed
radius R = 0.6f and the bucket size NEIGH_IDX_PREC_RANGE_RES = 0.2f.
-/

noncomputable section

open Real

/-- HFOV_RESOLUTION = 0.00613592315 (feature_selection.h:65). -/
def HFOV_RESOLUTION : ℝ := 0.00613592315

/-- VFOV_RESOLUTION = 0.03862995413 (feature_selection.h:66). -/
def VFOV_RESOLUTION : ℝ := 0.03862995413

/-- The fixed search radius R = 0.6f of the constructor. -/
def Rval : ℝ := 0.6

/-- The range of bucket `sample`: sample * NEIGH_IDX_PREC_RANGE_RES. -/
def rangeOf (sample : ℕ) : ℝ := (sample : ℝ) * 0.2

/-- std::atan2(y, x) on the domain y > 0, x >= 0 used by the constructor. -/
def atan2p (y x : ℝ) : ℝ := if x = 0 then π / 2 else arctan (y / x)

/-- max_v_idx of bucket `sample` (feature_selection.cpp:37). -/
def maxVIdx (sample : ℕ) : ℕ := ⌊atan2p Rval (rangeOf sample) / VFOV_RESOLUTION⌋₊

/-- k = range * tan(i * VFOV_RESOLUTION) (feature_selection.cpp:44). -/
def kVal (sample i : ℕ) : ℝ := rangeOf sample * Real.tan ((i : ℝ) * VFOV_RESOLUTION)

/-- max_h_idx of row offset i in bucket `sample` (feature_selection.cpp:45). -/
def maxHIdx (sample i : ℕ) : ℕ :=
  ⌊atan2p (Real.sqrt (Rval ^ 2 - kVal sample i ^ 2)) (rangeOf sample) / HFOV_RESOLUTION⌋₊

/-- One bucket of _neigh_idxs_rows_cols: the pair (max_v_idx, max_h_idx(i))
pushed for each i in [0, max_v_idx] (feature_selection.cpp:42-53; the first
component pushed is max_v_idx itself, the same value for every i). -/
def angularBucket (sample : ℕ) : List (ℕ × ℕ) :=
  (List.range (maxVIdx sample + 1)).map fun i => (maxVIdx sample, maxHIdx sample i)

/-- The stop condition of the construction loop (feature_selection.cpp:50-52):
the bucket whose envelope collapses to max_v_idx == 0 and max_h_idx == 0 is
appended and generation stops after it. -/
def stopCond (sample : ℕ) : Prop := maxVIdx sample = 0 ∧ maxHIdx sample 0 = 0

open Classical in
/-- Number of buckets the constructor generates: the loop appends every
bucket up to and including the first one that satisfies the stop condition
(the termination of the loop is proved below as exists_stopCond; by proof
irrelevance any witness of it yields the same table). -/
def tableLen : ℕ := if h : ∃ sample, stopCond sample then Nat.find h + 1 else 0

/-- The angular table _neigh_idxs_rows_cols built by the constructor. -/
def angularTable : List (List (ℕ × ℕ)) :=
  (List.range tableLen).map angularBucket

end

/-!
Concrete instances used in counterexamples and witnesses.  All grids are
single-column (width 1) grids with all points on the x-axis, so that every
displacement vector arising in a computation has zero y and z components and
the function l1norm below agrees with the Euclidean norm on all of them.
-/

/-- Norm function used to instantiate the abstract `nrm` parameter: it agrees
with the Euclidean norm on every vector with y = z = 0, which covers every
vector arising in the concrete grids of this file. -/
def l1norm (v : V3) : ℚ := |v.x| + |v.y| + |v.z|

/-- Grid for C5: four points at x = 0.05, 0.2, 0.3, 0.55 in rows 0-3.
With search radius 0.2 the neighbor pairs are (0,1), (1,2); point 3 is
standalone; the three grouped gradient magnitudes 0.15, 0.025, 0.1 are
pairwise distinct. -/
def ef5 : ExtractedFeatures :=
  ⟨[⟨1/20, 0, 0, 0⟩, ⟨1/5, 0, 0, 0⟩, ⟨3/10, 0, 0, 0⟩, ⟨11/20, 0, 0, 0⟩],
   [(0, 0), (1, 0), (2, 0), (3, 0)], [1/20, 1/5, 3/10, 11/20], 4, 1, [], []⟩

/-- Grid for C2 (percentile 1.0): two mutually close points, rows 0-1. -/
def ef2a : ExtractedFeatures :=
  ⟨[⟨1/10, 0, 0, 0⟩, ⟨1/5, 0, 0, 0⟩], [(0, 0), (1, 0)], [1/10, 1/5], 2, 1, [], []⟩

/-- Grid for C2 (empty ranking): one isolated point. -/
def ef2b : ExtractedFeatures :=
  ⟨[⟨1/10, 0, 0, 0⟩], [(0, 0)], [1/10], 1, 1, [], []⟩

/-- Grid for C1: candidate P at range 0.7 (row 0) and a point Q at row 26
whose Euclidean distance to P is sqrt(0.3524) < 0.6.  P's range bucket is 3
(bucket range 0.6), whose row envelope is at most 25 rows, so the windowed
search cannot reach row 26. -/
def efC1 : ExtractedFeatures :=
  ⟨[⟨7/10, 0, 0, 0⟩, ⟨1/5, 0, 8/25, 0⟩], [(0, 0), (26, 0)], [7/10, 19/50], 27, 1, [], []⟩

/-- Grid for C3: a single point at range 100, beyond the table extent. -/
def efFar : ExtractedFeatures :=
  ⟨[⟨100, 0, 0, 0⟩], [(0, 0)], [100], 1, 1, [], []⟩

/-- Grid for the witnesses of C6, C7 and the amended C5: points at
x = 0.01, 0.04, 0.1 in rows 0-2; with search radius 0.05 points 0 and 1 are
mutual neighbors and point 2 is standalone. -/
def ef6 : ExtractedFeatures :=
  ⟨[⟨1/100, 0, 0, 0⟩, ⟨1/25, 0, 0, 0⟩, ⟨1/10, 0, 0, 0⟩],
   [(0, 0), (1, 0), (2, 0)], [1/100, 1/25, 1/10], 3, 1, [], []⟩

/-- A concrete single-bucket angular table whose envelope covers any grid of
up to 51 rows; used by witnesses of table-generic theorems. -/
def tbl6 : List (List (ℕ × ℕ)) := [List.replicate 51 (50, 50)]

/-- Grid for the C8 witness: nonempty pass-through clouds. -/
def efPass : ExtractedFeatures :=
  ⟨[], [], [], 0, 0, [⟨1, 2, 3, 4⟩], [⟨5, 6, 7, 8⟩]⟩

/-- A disabled selection state (C8 witness). -/
def stDisabled : FSState := ⟨1/4, 1/2, 1/20, 3/5, 1/10, 1, false, 1/2, 1/2, []⟩

/-- An empty grid (C4). -/
def efEmptyBatch : ExtractedFeatures := ⟨[], [], [], 0, 0, [], []⟩

/-- The enabled state right after construction with the default parameters
(mins 0.05/0.1, maxes 0.6/1.0, initial resolutions the midpoints, keep
percentiles 0.5) and the built angular table (C4). -/
noncomputable def stEnabled : FSState :=
  ⟨13/40, 11/20, 1/20, 3/5, 1/10, 1, true, 1/2, 1/2, angularTable⟩

/-- The state after a selectFeatures call on empty batches from stEnabled:
both sentinel cutoffs -1 drive the resolutions below their minima (C4). -/
noncomputable def stAfterEmpty : FSState :=
  ⟨-(1/2), -(4/5), 1/20, 3/5, 1/10, 1, true, 1/2, 1/2, angularTable⟩

/-! Basic facts about arctan and the envelope quantities. -/

open Real in
/-- arctan is bounded by its argument on the nonnegative axis. -/
lemma arctan_le_self {x : ℝ} (hx : 0 ≤ x) : arctan x ≤ x := by
  have h0 : 0 ≤ arctan x := by
    simpa [arctan_zero] using arctan_strictMono.monotone hx
  have := Real.le_tan h0 (arctan_lt_pi_div_two x)
  simpa [tan_arctan] using this

open Real in
lemma atan2p_nonneg {y x : ℝ} (hy : 0 ≤ y) (hx : 0 ≤ x) : 0 ≤ atan2p y x := by
  unfold atan2p
  split
  · positivity
  · have hx' : 0 < x := lt_of_le_of_ne hx (by tauto)
    simpa [arctan_zero] using arctan_strictMono.monotone (div_nonneg hy hx)

open Real in
/-- Upper bound transfer for atan2p with a positive abscissa. -/
lemma atan2p_le {y x : ℝ} (hy : 0 ≤ y) (hx : 0 < x) : atan2p y x ≤ y / x := by
  unfold atan2p
  rw [if_neg hx.ne.symm]
  exact arctan_le_self (div_nonneg hy hx.le)

open Real in
/-- Lower bound: atan2p dominates arctan 1 = pi/4 when y >= x > 0. -/
lemma pi_div_four_le_atan2p {y x : ℝ} (hx : 0 < x) (hxy : x ≤ y) : π / 4 ≤ atan2p y x := by
  unfold atan2p
  rw [if_neg hx.ne.symm, ← arctan_one]
  exact arctan_strictMono.monotone ((one_le_div hx).mpr hxy)

lemma VFOV_pos : (0:ℝ) < VFOV_RESOLUTION := by unfold VFOV_RESOLUTION; norm_num

lemma HFOV_pos : (0:ℝ) < HFOV_RESOLUTION := by unfold HFOV_RESOLUTION; norm_num

lemma Rval_pos : (0:ℝ) < Rval := by unfold Rval; norm_num

/-- The generation loop reaches its stop condition: at bucket 489
(range 97.8) both envelope offsets are zero. -/
lemma stopCond_489 : stopCond 489 := by
  have hrange : rangeOf 489 = 97.8 := by unfold rangeOf; norm_num
  have hk : kVal 489 0 = 0 := by
    unfold kVal
    simp [Real.tan_zero]
  have hsq : Real.sqrt (Rval ^ 2 - kVal 489 0 ^ 2) = 0.6 := by
    rw [hk]
    have : Rval ^ 2 - (0:ℝ) ^ 2 = 0.6 ^ 2 := by unfold Rval; norm_num
    rw [this, Real.sqrt_sq (by norm_num)]
  have hbound : atan2p 0.6 97.8 < HFOV_RESOLUTION := by
    have h1 : atan2p 0.6 97.8 ≤ 0.6 / 97.8 := atan2p_le (by norm_num) (by norm_num)
    have h2 : (0.6:ℝ) / 97.8 < HFOV_RESOLUTION := by unfold HFOV_RESOLUTION; norm_num
    linarith
  have hbounds : atan2p 0.6 97.8 < VFOV_RESOLUTION := by
    have h2 : HFOV_RESOLUTION < VFOV_RESOLUTION := by
      unfold HFOV_RESOLUTION VFOV_RESOLUTION; norm_num
    linarith
  have hnn : 0 ≤ atan2p 0.6 97.8 := atan2p_nonneg (by norm_num) (by norm_num)
  constructor
  · unfold maxVIdx
    rw [hrange]
    rw [Nat.floor_eq_zero]
    rw [div_lt_one VFOV_pos]
    exact hbounds
  · unfold maxHIdx
    rw [hsq, hrange]
    rw [Nat.floor_eq_zero]
    rw [div_lt_one HFOV_pos]
    exact hbound

/-- The construction loop terminates. -/
lemma exists_stopCond : ∃ sample, stopCond sample := ⟨489, stopCond_489⟩

open Classical in
lemma tableLen_le_490 : tableLen ≤ 490 := by
  unfold tableLen
  rw [dif_pos exists_stopCond]
  have := Nat.find_min' exists_stopCond stopCond_489
  omega

/-- Lower-bound transfer into maxVIdx. -/
lemma le_maxVIdx (sample n : ℕ) (h : (n : ℝ) * VFOV_RESOLUTION ≤ atan2p Rval (rangeOf sample)) :
    n ≤ maxVIdx sample := by
  unfold maxVIdx
  exact Nat.le_floor ((le_div_iff₀ VFOV_pos).mpr h)

/-- Upper-bound transfer out of maxVIdx. -/
lemma maxVIdx_lt (sample n : ℕ) (h : atan2p Rval (rangeOf sample) < (n : ℝ) * VFOV_RESOLUTION) :
    maxVIdx sample < n := by
  unfold maxVIdx
  have hnn : 0 ≤ atan2p Rval (rangeOf sample) / VFOV_RESOLUTION :=
    div_nonneg (atan2p_nonneg Rval_pos.le (by unfold rangeOf; positivity)) VFOV_pos.le
  rw [Nat.floor_lt hnn]
  exact (div_lt_iff₀ VFOV_pos).mpr h

open Real in
/-- The first three buckets have a row envelope of at least three rows. -/
lemma three_le_maxVIdx (sample : ℕ) (h : sample ≤ 2) : 3 ≤ maxVIdx sample := by
  apply le_maxVIdx
  have hv : (3 : ℝ) * VFOV_RESOLUTION ≤ π / 4 := by
    unfold VFOV_RESOLUTION
    nlinarith [Real.pi_gt_three]
  rcases Nat.lt_or_ge sample 1 with h0 | h1
  · interval_cases sample
    have hr0 : rangeOf 0 = 0 := by unfold rangeOf; norm_num
    unfold atan2p
    rw [hr0, if_pos rfl]
    unfold VFOV_RESOLUTION
    nlinarith [Real.pi_gt_three]
  · have hrpos : (0:ℝ) < rangeOf sample := by
      unfold rangeOf
      have h1r : (1:ℝ) ≤ (sample : ℝ) := by exact_mod_cast h1
      nlinarith
    have hrle : rangeOf sample ≤ Rval := by
      unfold rangeOf Rval
      have h2r : (sample : ℝ) ≤ 2 := by exact_mod_cast h
      nlinarith
    exact le_trans hv (pi_div_four_le_atan2p hrpos hrle)

lemma rangeOf_3 : rangeOf 3 = 0.6 := by unfold rangeOf; norm_num

open Real in
/-- Bucket 3 (range 0.6): the row envelope is at most 25 rows. -/
lemma maxVIdx_3_le_25 : maxVIdx 3 ≤ 25 := by
  have h : atan2p Rval (rangeOf 3) < (26 : ℝ) * VFOV_RESOLUTION := by
    unfold atan2p
    rw [rangeOf_3, if_neg (by norm_num)]
    have : Rval / (0.6 : ℝ) = 1 := by unfold Rval; norm_num
    rw [this, arctan_one]
    unfold VFOV_RESOLUTION
    linarith [Real.pi_lt_four]
  exact Nat.lt_succ_iff.mp (maxVIdx_lt 3 26 h)

open Classical in
lemma four_le_tableLen : 4 ≤ tableLen := by
  unfold tableLen
  rw [dif_pos exists_stopCond]
  have h : 2 < Nat.find exists_stopCond := by
    rw [Nat.lt_find_iff]
    intro m hm hstop
    obtain ⟨h0, _⟩ := hstop
    have := three_le_maxVIdx m hm
    omega
  omega

lemma angularBucket_length (sample : ℕ) : (angularBucket sample).length = maxVIdx sample + 1 := by
  unfold angularBucket
  simp

lemma angularBucket_getElem (sample dv : ℕ) (h : dv ≤ maxVIdx sample) :
    (angularBucket sample)[dv]? = some (maxVIdx sample, maxHIdx sample dv) := by
  unfold angularBucket
  rw [List.getElem?_map, List.getElem?_range (by omega)]
  rfl

lemma angularBucket_getLast (sample : ℕ) :
    (angularBucket sample).getLast? = some (maxVIdx sample, maxHIdx sample (maxVIdx sample)) := by
  rw [List.getLast?_eq_getElem?, angularBucket_length]
  simpa using angularBucket_getElem sample (maxVIdx sample) le_rfl

lemma angularTable_length : angularTable.length = tableLen := by
  unfold angularTable
  simp

/-- Lookup of a distance falling into bucket b of the built table. -/
lemma getNNL_angularTable (d : ℚ) (b : ℕ)
    (h1 : Int.floor (d / NEIGH_IDX_PREC_RANGE_RES) = (b : ℤ)) (h2 : b < tableLen) :
    getNearestNeighborLimits angularTable d = angularBucket b := by
  unfold getNearestNeighborLimits
  rw [h1]
  have hcond : 0 ≤ (b : ℤ) ∧ (b : ℤ).toNat < angularTable.length := by
    constructor
    · exact Int.ofNat_nonneg b
    · rw [angularTable_length]
      simpa using h2
  rw [if_pos hcond]
  unfold angularTable
  rw [Int.toNat_ofNat]
  rw [List.getD_eq_getElem?_getD, List.getElem?_map, List.getElem?_range (by simpa using h2)]
  rfl

/-- Lookup of a distance beyond the built table: empty envelope. -/
lemma getNNL_angularTable_empty (d : ℚ)
    (h : (tableLen : ℤ) ≤ Int.floor (d / NEIGH_IDX_PREC_RANGE_RES)) :
    getNearestNeighborLimits angularTable d = [] := by
  unfold getNearestNeighborLimits
  rw [if_neg]
  rintro ⟨h0, hlt⟩
  rw [angularTable_length] at hlt
  omega

/-! Window lemmas for single-column grids. -/

/-- On a single-column grid the column window degenerates to the single
column 0, whatever the horizontal envelope value is. -/
lemma nbbCols_width1 (ef : ExtractedFeatures) (table : List (List Int)) (max_range : ℚ)
    (idx this_r : ℕ) (i h_idx : ℕ) :
    nbbCols ef table 1 max_range idx this_r 0 i h_idx =
      (cellContrib ef table max_range idx this_r 0 i 0).toList := by
  unfold nbbCols
  dsimp only
  have h1 : (0:ℕ) - h_idx = 0 := by omega
  have h2 : min 1 (0 + h_idx + 1) = 1 := by omega
  rw [h1, h2]
  have h3 : List.range' 0 (1 - 0) = [0] := rfl
  rw [h3, List.filterMap_cons]
  cases h : cellContrib ef table max_range idx this_r 0 i 0 <;> simp [h]

/-- The row loop succeeds and collects the per-row contributions when every
row offset of the window is inside the envelope. -/
lemma nbbRows_eq_of_lt_length (env : List (ℕ × ℕ)) (ef : ExtractedFeatures)
    (table : List (List Int)) (max_range : ℚ) (idx this_r : ℕ) (l : List ℕ)
    (h : ∀ i ∈ l, max (i - this_r) (this_r - i) < env.length) :
    nbbRows env ef table 1 max_range idx this_r 0 l =
      some ((l.map fun i => (cellContrib ef table max_range idx this_r 0 i 0).toList).flatten) := by
  induction l with
  | nil => rfl
  | cons i rest ih =>
    have hi := h i (List.mem_cons_self i rest)
    have hrest := fun j hj => h j (List.mem_cons_of_mem i hj)
    unfold nbbRows
    dsimp only
    rw [List.getElem?_eq_getElem hi]
    rw [ih hrest]
    dsimp only
    rw [nbbCols_width1]
    simp

/-- Per-candidate neighbor search over a single-column grid with well-formed
envelope: the result is the flattened per-row contributions of the effective
row window. -/
lemma nbbOf_width1 (tbl : List (List (ℕ × ℕ))) (ef : ExtractedFeatures)
    (table : List (List Int)) (cloud_height : ℕ) (max_range : ℚ) (idx r v h0 : ℕ)
    (env : List (ℕ × ℕ))
    (hcell : getRowColInRawData ef idx = (r, 0))
    (henv : getNearestNeighborLimits tbl (getRange ef idx) = env)
    (hlast : env.getLast? = some (v, h0))
    (hlen : v < env.length) :
    nbbOf tbl ef table 1 cloud_height max_range idx =
      some (((List.range' (r - v) (min cloud_height (r + v + 1) - (r - v))).map
        fun i => (cellContrib ef table max_range idx r 0 i 0).toList).flatten) := by
  unfold nbbOf
  dsimp only
  rw [hcell]
  dsimp only
  rw [henv, hlast]
  apply nbbRows_eq_of_lt_length
  intro i hi
  rw [List.mem_range'] at hi
  omega

/-- Covering case: all rows of the grid fall inside the window, and the
windowed search coincides with the brute-force search over all cells. -/
lemma nbbOf_width1_full (tbl : List (List (ℕ × ℕ))) (ef : ExtractedFeatures)
    (table : List (List Int)) (max_range : ℚ) (idx r v h0 : ℕ)
    (env : List (ℕ × ℕ))
    (hcell : getRowColInRawData ef idx = (r, 0))
    (henv : getNearestNeighborLimits tbl (getRange ef idx) = env)
    (hlast : env.getLast? = some (v, h0))
    (hlen : v < env.length)
    (hrows : ∀ row ∈ table, row.length = 1)
    (hr : r < table.length)
    (hv : table.length ≤ v + 1) :
    nbbOf tbl ef table 1 table.length max_range idx =
      some (bruteNeighbors ef table max_range idx) := by
  rw [nbbOf_width1 tbl ef table table.length max_range idx r v h0 env hcell henv hlast hlen]
  congr 1
  have h1 : r - v = 0 := by omega
  have h2 : min table.length (r + v + 1) = table.length := by omega
  rw [h1, h2]
  unfold bruteNeighbors
  rw [hcell]
  simp only [Nat.sub_zero]
  rw [← List.range_eq_range']
  congr 1
  apply List.map_congr_left
  intro i hi
  rw [List.mem_range] at hi
  have hrow : (table.getD i []).length = 1 := by
    rw [List.getD_eq_getElem?_getD, List.getElem?_eq_getElem hi]
    exact hrows (table[i]) (List.getElem_mem hi)
  rw [hrow]
  have hr1 : List.range 1 = [0] := rfl
  rw [hr1, List.filterMap_cons]
  cases h : cellContrib ef table max_range idx r 0 i 0 <;> simp [h]

/-- Isolated case: every non-candidate cell of the window is empty, so the
windowed search returns no neighbors. -/
lemma nbbOf_width1_empty (tbl : List (List (ℕ × ℕ))) (ef : ExtractedFeatures)
    (table : List (List Int)) (cloud_height : ℕ) (max_range : ℚ) (idx r v h0 : ℕ)
    (env : List (ℕ × ℕ))
    (hcell : getRowColInRawData ef idx = (r, 0))
    (henv : getNearestNeighborLimits tbl (getRange ef idx) = env)
    (hlast : env.getLast? = some (v, h0))
    (hlen : v < env.length)
    (hempty : ∀ i, r - v ≤ i → i < min cloud_height (r + v + 1) → i ≠ r →
      cellEntry table i 0 = -1) :
    nbbOf tbl ef table 1 cloud_height max_range idx = some [] := by
  rw [nbbOf_width1 tbl ef table cloud_height max_range idx r v h0 env hcell henv hlast hlen]
  congr 1
  rw [List.flatten_eq_nil_iff]
  intro l hl
  rw [List.mem_map] at hl
  obtain ⟨i, hi, rfl⟩ := hl
  rw [List.mem_range'] at hi
  rcases eq_or_ne i r with hir | hir
  · subst hir
    unfold cellContrib
    rw [if_pos ⟨rfl, rfl⟩]
    rfl
  · unfold cellContrib
    rw [if_neg (by tauto)]
    simp only
    rw [if_pos (hempty i (by omega) (by omega) hir)]
    rfl

/-! Structural facts about the gradient pass and the descending sort. -/

lemma gradPass_grouped (nrm : V3 → ℚ) (cloud : List Pt) (nbMap : List (ℕ × List V3))
    (idxs : List ℕ) :
    (gradPass nrm cloud nbMap idxs).2.1 =
      (idxs.filter fun i => decide (0 < (lookupNb nbMap i).length)).map
        fun i => (i, gmag nrm cloud (lookupNb nbMap i) i) := by
  induction idxs with
  | nil => rfl
  | cons i rest ih =>
    unfold gradPass
    by_cases h : 0 < (lookupNb nbMap i).length
    · rw [if_pos h]
      simp [List.filter_cons, h, ih]
    · rw [if_neg h]
      simp [List.filter_cons, h, ih]

lemma gradPass_standalone (nrm : V3 → ℚ) (cloud : List Pt) (nbMap : List (ℕ × List V3))
    (idxs : List ℕ) :
    (gradPass nrm cloud nbMap idxs).1 =
      idxs.filter fun i => !decide (0 < (lookupNb nbMap i).length) := by
  induction idxs with
  | nil => rfl
  | cons i rest ih =>
    unfold gradPass
    by_cases h : 0 < (lookupNb nbMap i).length
    · rw [if_pos h]
      simp [List.filter_cons, h, ih]
    · rw [if_neg h]
      simp [List.filter_cons, h, ih]

lemma gradPass_length (nrm : V3 → ℚ) (cloud : List Pt) (nbMap : List (ℕ × List V3))
    (idxs : List ℕ) :
    (gradPass nrm cloud nbMap idxs).1.length + (gradPass nrm cloud nbMap idxs).2.1.length =
      idxs.length := by
  induction idxs with
  | nil => rfl
  | cons i rest ih =>
    unfold gradPass
    by_cases h : 0 < (lookupNb nbMap i).length
    · rw [if_pos h]
      simpa using by omega
    · rw [if_neg h]
      simpa using by omega

lemma gradPass_max_nonneg (nrm : V3 → ℚ) (cloud : List Pt) (nbMap : List (ℕ × List V3))
    (idxs : List ℕ) : 0 ≤ (gradPass nrm cloud nbMap idxs).2.2 := by
  induction idxs with
  | nil => exact le_refl 0
  | cons i rest ih =>
    unfold gradPass
    by_cases h : 0 < (lookupNb nbMap i).length
    · rw [if_pos h]
      exact le_trans ih (le_max_right _ _)
    · rw [if_neg h]
      exact ih

lemma gradPass_le_max (nrm : V3 → ℚ) (cloud : List Pt) (nbMap : List (ℕ × List V3))
    (idxs : List ℕ) :
    ∀ pr ∈ (gradPass nrm cloud nbMap idxs).2.1, pr.2 ≤ (gradPass nrm cloud nbMap idxs).2.2 := by
  induction idxs with
  | nil => intro pr hpr; cases hpr
  | cons i rest ih =>
    intro pr hpr
    unfold gradPass at hpr ⊢
    by_cases h : 0 < (lookupNb nbMap i).length
    · rw [if_pos h] at hpr ⊢
      rcases List.mem_cons.mp hpr with heq | hmem
      · subst heq
        exact le_max_left _ _
      · exact le_trans (ih pr hmem) (le_max_right _ _)
    · rw [if_neg h] at hpr ⊢
      exact ih pr hpr

lemma gradPass_max_mem (nrm : V3 → ℚ) (cloud : List Pt) (nbMap : List (ℕ × List V3))
    (idxs : List ℕ) (h : 0 < (gradPass nrm cloud nbMap idxs).2.2) :
    ∃ pr ∈ (gradPass nrm cloud nbMap idxs).2.1, pr.2 = (gradPass nrm cloud nbMap idxs).2.2 := by
  induction idxs with
  | nil => exact absurd h (by simp [gradPass])
  | cons i rest ih =>
    unfold gradPass at h ⊢
    by_cases hl : 0 < (lookupNb nbMap i).length
    · rw [if_pos hl] at h ⊢
      rcases le_total (gmag nrm cloud (lookupNb nbMap i) i) (gradPass nrm cloud nbMap rest).2.2
        with hle | hle
      · have hmx : max (gmag nrm cloud (lookupNb nbMap i) i) (gradPass nrm cloud nbMap rest).2.2 =
            (gradPass nrm cloud nbMap rest).2.2 := max_eq_right hle
        rw [hmx] at h ⊢
        obtain ⟨pr, hpr, he⟩ := ih h
        exact ⟨pr, List.mem_cons_of_mem _ hpr, he⟩
      · have hmx : max (gmag nrm cloud (lookupNb nbMap i) i) (gradPass nrm cloud nbMap rest).2.2 =
            gmag nrm cloud (lookupNb nbMap i) i := max_eq_left hle
        rw [hmx]
        exact ⟨(i, gmag nrm cloud (lookupNb nbMap i) i), List.mem_cons_self _ _, rfl⟩
    · rw [if_neg hl] at h ⊢
      obtain ⟨pr, hpr, he⟩ := ih h
      exact ⟨pr, hpr, he⟩

lemma insertDesc_perm (a : ℕ × ℚ) (l : List (ℕ × ℚ)) : (insertDesc a l).Perm (a :: l) := by
  induction l with
  | nil => exact List.Perm.refl _
  | cons b t ih =>
    unfold insertDesc
    by_cases h : b.2 < a.2
    · rw [if_pos h]
    · rw [if_neg h]
      exact List.Perm.trans (List.Perm.cons b ih) (List.Perm.swap a b t)

lemma sortDesc_perm (l : List (ℕ × ℚ)) : (sortDesc l).Perm l := by
  induction l with
  | nil => exact List.Perm.refl _
  | cons a t ih =>
    unfold sortDesc
    exact List.Perm.trans (insertDesc_perm a (sortDesc t)) (List.Perm.cons a ih)

/-- In a list of pairwise distinct values, at most one entry can equal any
given value. -/
lemma countP_le_one_of_pairwise_ne (l : List (ℕ × ℚ)) (c : ℚ)
    (h : l.Pairwise fun a b => a.2 ≠ b.2) :
    (l.countP fun pr => decide (pr.2 = c)) ≤ 1 := by
  induction l with
  | nil => simp
  | cons a t ih =>
    rw [List.pairwise_cons] at h
    rw [List.countP_cons]
    by_cases hc : a.2 = c
    · have hz : (t.countP fun pr => decide (pr.2 = c)) = 0 := by
        rw [List.countP_eq_zero]
        intro b hb
        simp only [decide_eq_true_eq]
        intro hbc
        exact h.1 b hb (by rw [hc, hbc])
      simp [hz, hc]
    · rw [decide_eq_false hc]
      simpa using ih h.2

lemma l1norm_nonneg (v : V3) : 0 ≤ l1norm v := by
  unfold l1norm
  positivity

/-- On the x-axis the instantiated norm is the Euclidean norm. -/
lemma l1norm_axis (v : V3) (hy : v.y = 0) (hz : v.z = 0) : l1norm v ^ 2 = normSq v := by
  unfold l1norm normSq
  rw [hy, hz]
  simp [sq_abs]

lemma buildOrderedFeatureTable_length (ef : ExtractedFeatures) (indices : List (List ℕ)) :
    (buildOrderedFeatureTable ef indices).length = ef.nRows := by
  unfold buildOrderedFeatureTable
  simp

lemma buildOrderedFeatureTable_row_length (ef : ExtractedFeatures) (indices : List (List ℕ)) :
    ∀ row ∈ buildOrderedFeatureTable ef indices, row.length = ef.width := by
  intro row hrow
  unfold buildOrderedFeatureTable at hrow
  rw [List.mem_map] at hrow
  obtain ⟨r, _, rfl⟩ := hrow
  simp

/-- Covering instance of the windowed search over the built angular table:
on a single-column grid whose rows all fall inside the row envelope of the
candidate's range bucket, the windowed search agrees with the brute-force
search. -/
lemma nbbOf_angular_full (ef : ExtractedFeatures) (table : List (List Int)) (max_range : ℚ)
    (idx r b H : ℕ)
    (hcell : getRowColInRawData ef idx = (r, 0))
    (hfloor : Int.floor (getRange ef idx / NEIGH_IDX_PREC_RANGE_RES) = (b : ℤ))
    (hb : b < tableLen)
    (hrows : ∀ row ∈ table, row.length = 1)
    (hH : H = table.length)
    (hr : r < table.length)
    (hv : table.length ≤ maxVIdx b + 1) :
    nbbOf angularTable ef table 1 H max_range idx =
      some (bruteNeighbors ef table max_range idx) := by
  subst hH
  exact nbbOf_width1_full angularTable ef table max_range idx r (maxVIdx b)
    (maxHIdx b (maxVIdx b)) (angularBucket b) hcell
    (getNNL_angularTable _ b hfloor hb) (angularBucket_getLast b)
    (by rw [angularBucket_length]; omega) hrows hr hv

/-- Isolated instance of the windowed search over the built angular table:
on a single-column grid where every non-candidate cell within the row
envelope is empty, the windowed search returns no neighbors. -/
lemma nbbOf_angular_empty (ef : ExtractedFeatures) (table : List (List Int)) (max_range : ℚ)
    (idx r b H : ℕ)
    (hcell : getRowColInRawData ef idx = (r, 0))
    (hfloor : Int.floor (getRange ef idx / NEIGH_IDX_PREC_RANGE_RES) = (b : ℤ))
    (hb : b < tableLen)
    (hempty : ∀ i, i ≤ r + maxVIdx b → i ≠ r → cellEntry table i 0 = -1) :
    nbbOf angularTable ef table 1 H max_range idx = some [] := by
  apply nbbOf_width1_empty angularTable ef table H max_range idx r (maxVIdx b)
    (maxHIdx b (maxVIdx b)) (angularBucket b) hcell
    (getNNL_angularTable _ b hfloor hb) (angularBucket_getLast b)
    (by rw [angularBucket_length]; omega)
  intro i h1 h2 hir
  exact hempty i (by omega) hir

/-- Every neighbor collected by the row loop comes from some row of the
window through the column loop. -/
lemma nbbRows_mem (env : List (ℕ × ℕ)) (ef : ExtractedFeatures) (table : List (List Int))
    (cloud_width : ℕ) (max_range : ℚ) (idx this_r this_c : ℕ) (l : List ℕ) (L : List V3)
    (h : nbbRows env ef table cloud_width max_range idx this_r this_c l = some L) :
    ∀ x ∈ L, ∃ i ∈ l, ∃ hv : ℕ,
      x ∈ nbbCols ef table cloud_width max_range idx this_r this_c i hv := by
  induction l generalizing L with
  | nil =>
    unfold nbbRows at h
    cases h
    intro x hx
    cases hx
  | cons i rest ih =>
    unfold nbbRows at h
    dsimp only at h
    cases he : env[max (i - this_r) (this_r - i)]? with
    | none => rw [he] at h; cases h
    | some pr =>
      rw [he] at h
      cases ht : nbbRows env ef table cloud_width max_range idx this_r this_c rest with
      | none => rw [ht] at h; cases h
      | some tail =>
        rw [ht] at h
        cases h
        intro x hx
        rcases List.mem_append.mp hx with hx1 | hx2
        · exact ⟨i, List.mem_cons_self i rest, pr.2, hx1⟩
        · obtain ⟨i2, hi2, hv2, hx3⟩ := ih tail ht x hx2
          exact ⟨i2, List.mem_cons_of_mem i hi2, hv2, hx3⟩

/-- C1 (amended): the angular-envelope-windowed neighbor search of
getNeighborsInBB is sound with respect to the brute-force exhaustive
Euclidean radius search - every neighbor it returns for a candidate is also
found by the brute-force search over all valid cells of the grid.  (The
converse inclusion, and hence the claimed exact set equality, is false; see
the counterexample.) -/
theorem C1_windowed_subset_bruteforce (tbl : List (List (ℕ × ℕ))) (ef : ExtractedFeatures)
    (indices : List (List ℕ)) (max_range : ℚ) (idx : ℕ) (l : List V3) (x : V3)
    (h : nbbOf tbl ef (buildOrderedFeatureTable ef indices) ef.width
      (buildOrderedFeatureTable ef indices).length max_range idx = some l)
    (hx : x ∈ l) :
    x ∈ bruteNeighbors ef (buildOrderedFeatureTable ef indices) max_range idx := by
  set table := buildOrderedFeatureTable ef indices with htab
  unfold nbbOf at h
  dsimp only at h
  cases hlast : (getNearestNeighborLimits tbl (getRange ef idx)).getLast? with
  | none => rw [hlast] at h; cases h
  | some lastPair =>
    rw [hlast] at h
    obtain ⟨i, hi, hv, hxc⟩ :=
      nbbRows_mem _ ef table ef.width max_range idx _ _ _ l h x hx
    rw [List.mem_range'] at hi
    have hiH : i < table.length := by omega
    unfold nbbCols at hxc
    dsimp only at hxc
    rw [List.mem_filterMap] at hxc
    obtain ⟨j, hj, hcontrib⟩ := hxc
    rw [List.mem_range'] at hj
    have hjW : j < ef.width := by omega
    unfold bruteNeighbors
    rw [List.mem_flatten]
    refine ⟨(List.range (table.getD i []).length).filterMap
      (cellContrib ef table max_range idx (getRowColInRawData ef idx).1
        (getRowColInRawData ef idx).2 i), ?_, ?_⟩
    · rw [List.mem_map]
      exact ⟨i, List.mem_range.mpr hiH, rfl⟩
    · rw [List.mem_filterMap]
      refine ⟨j, ?_, hcontrib⟩
      rw [List.mem_range]
      have hrl : (table.getD i []).length = ef.width := by
        apply buildOrderedFeatureTable_row_length ef indices
        rw [List.getD_eq_getElem?_getD, List.getElem?_eq_getElem hiH]
        simp only [Option.getD_some]
        exact List.getElem_mem hiH
      omega

section
attribute [local semireducible] Rat.add Rat.mul Rat.sub Rat.inv Rat.ofScientific

lemma c5_nbmap : getNeighborsInBB angularTable ef5 [[0], [1], [2], [3]] (1/5) =
    some [(0, [⟨1/5, 0, 0⟩]), (1, [⟨1/20, 0, 0⟩, ⟨3/10, 0, 0⟩]), (2, [⟨1/5, 0, 0⟩]),
      (3, [])] := by
  have h0 : nbbOf angularTable ef5 [[0], [1], [2], [3]] 1 4 (1/5) 0 = some [⟨1/5, 0, 0⟩] := by
    rw [nbbOf_angular_full ef5 [[0], [1], [2], [3]] (1/5) 0 0 0 4 (by decide) (by decide)
      (by have := four_le_tableLen; omega) (by decide) (by decide) (by decide)
      (by have := three_le_maxVIdx 0 (by omega); simp only [List.length_cons, List.length_nil]
          omega)]
    decide
  have h1 : nbbOf angularTable ef5 [[0], [1], [2], [3]] 1 4 (1/5) 1 =
      some [⟨1/20, 0, 0⟩, ⟨3/10, 0, 0⟩] := by
    rw [nbbOf_angular_full ef5 [[0], [1], [2], [3]] (1/5) 1 1 1 4 (by decide) (by decide)
      (by have := four_le_tableLen; omega) (by decide) (by decide) (by decide)
      (by have := three_le_maxVIdx 1 (by omega); simp only [List.length_cons, List.length_nil]
          omega)]
    decide
  have h2 : nbbOf angularTable ef5 [[0], [1], [2], [3]] 1 4 (1/5) 2 = some [⟨1/5, 0, 0⟩] := by
    rw [nbbOf_angular_full ef5 [[0], [1], [2], [3]] (1/5) 2 2 1 4 (by decide) (by decide)
      (by have := four_le_tableLen; omega) (by decide) (by decide) (by decide)
      (by have := three_le_maxVIdx 1 (by omega); simp only [List.length_cons, List.length_nil]
          omega)]
    decide
  have h3 : nbbOf angularTable ef5 [[0], [1], [2], [3]] 1 4 (1/5) 3 = some [] := by
    rw [nbbOf_angular_full ef5 [[0], [1], [2], [3]] (1/5) 3 3 2 4 (by decide) (by decide)
      (by have := four_le_tableLen; omega) (by decide) (by decide) (by decide)
      (by have := three_le_maxVIdx 2 (by omega); simp only [List.length_cons, List.length_nil]
          omega)]
    decide
  unfold getNeighborsInBB
  dsimp only
  rw [show buildOrderedFeatureTable ef5 [[0], [1], [2], [3]] = [[0], [1], [2], [3]] by decide]
  simp only [List.flatten, List.singleton_append, List.cons_append, List.nil_append,
    List.mapM_cons, List.mapM_nil, List.length_cons, List.length_nil]
  rw [show ef5.width = 1 from rfl]
  rw [h0, h1, h2, h3]
  rfl

lemma c5_est : estimateGradients angularTable l1norm ef5 4 [[0], [1], [2], [3]] (1/5) =
    some ([3], [(0, 1), (2, 2/3), (1, 1/6)], 11/18, 19/216) := by
  unfold estimateGradients
  rw [c5_nbmap]
  decide

lemma c2a_nbmap : getNeighborsInBB angularTable ef2a [[0], [1]] (1/5) =
    some [(0, [⟨1/5, 0, 0⟩]), (1, [⟨1/10, 0, 0⟩])] := by
  have h0 : nbbOf angularTable ef2a [[0], [1]] 1 2 (1/5) 0 = some [⟨1/5, 0, 0⟩] := by
    rw [nbbOf_angular_full ef2a [[0], [1]] (1/5) 0 0 0 2 (by decide) (by decide)
      (by have := four_le_tableLen; omega) (by decide) (by decide) (by decide)
      (by have := three_le_maxVIdx 0 (by omega); simp only [List.length_cons, List.length_nil]
          omega)]
    decide
  have h1 : nbbOf angularTable ef2a [[0], [1]] 1 2 (1/5) 1 = some [⟨1/10, 0, 0⟩] := by
    rw [nbbOf_angular_full ef2a [[0], [1]] (1/5) 1 1 1 2 (by decide) (by decide)
      (by have := four_le_tableLen; omega) (by decide) (by decide) (by decide)
      (by have := three_le_maxVIdx 1 (by omega); simp only [List.length_cons, List.length_nil]
          omega)]
    decide
  unfold getNeighborsInBB
  dsimp only
  rw [show buildOrderedFeatureTable ef2a [[0], [1]] = [[0], [1]] by decide]
  simp only [List.flatten, List.singleton_append, List.cons_append, List.nil_append,
    List.mapM_cons, List.mapM_nil, List.length_cons, List.length_nil]
  rw [show ef2a.width = 1 from rfl]
  rw [h0, h1]
  rfl

lemma c2a_est : estimateGradients angularTable l1norm ef2a 2 [[0], [1]] (1/5) =
    some ([], [(1, 1), (0, 1)], 1, 0) := by
  unfold estimateGradients
  rw [c2a_nbmap]
  decide

lemma c2b_nbmap : getNeighborsInBB angularTable ef2b [[0]] (1/5) = some [(0, [])] := by
  have h0 : nbbOf angularTable ef2b [[0]] 1 1 (1/5) 0 = some [] := by
    rw [nbbOf_angular_full ef2b [[0]] (1/5) 0 0 0 1 (by decide) (by decide)
      (by have := four_le_tableLen; omega) (by decide) (by decide) (by decide)
      (by have := three_le_maxVIdx 0 (by omega); simp only [List.length_cons, List.length_nil]
          omega)]
    decide
  unfold getNeighborsInBB
  dsimp only
  rw [show buildOrderedFeatureTable ef2b [[0]] = [[0]] by decide]
  simp only [List.flatten, List.singleton_append, List.cons_append, List.nil_append,
    List.mapM_cons, List.mapM_nil, List.length_cons, List.length_nil]
  rw [show ef2b.width = 1 from rfl]
  rw [h0]
  rfl

lemma c2b_est : estimateGradients angularTable l1norm ef2b 1 [[0]] (1/5) =
    some ([0], [], 0, 0) := by
  unfold estimateGradients
  rw [c2b_nbmap]
  decide

/-- C2: the cutoff-index computation of selectFeaturesFromCloudByGradient is
NOT clamped: at percentile 1.0 with two grouped features the checked access
gradients.at(floor(1.0 * 2)) = gradients.at(2) is out of range and throws
(none); with a batch whose single feature is standalone the ranking is empty
and gradients.at(0) likewise throws.  This refutes the claim that the
computation is guarded; the spec (§7) states the clamp to [0, N-1] as the
required behaviour, so the code is in error. -/
theorem C2_unclamped_cutoff_faults :
    selectFeaturesFromCloudByGradient angularTable l1norm ef2a 2 [[0], [1]] (1/5) 1 = none ∧
    selectFeaturesFromCloudByGradient angularTable l1norm ef2b 1 [[0]] (1/5) (1/2) = none := by
  constructor
  · unfold selectFeaturesFromCloudByGradient
    rw [if_neg (by decide)]
    rw [c2a_est]
    decide
  · unfold selectFeaturesFromCloudByGradient
    rw [if_neg (by decide)]
    rw [c2b_est]
    decide

/-- C5 (counterexample): at the four-point batch ef5 (three grouped features
with distinct normalized gradients 1, 2/3, 1/6 and one standalone feature)
estimateGradients returns the squared-deviation sum divided by the TOTAL
feature count 4, so the returned standard deviation sqrt(19/216) differs
from the claimed population standard deviation over the 3 grouped features
sqrt(19/162). -/
theorem C5_counterexample_stddev_divisor :
    estimateGradients angularTable l1norm ef5 4 [[0], [1], [2], [3]] (1/5) =
      some ([3], [(0, 1), (2, 2/3), (1, 1/6)], 11/18, 19/216) ∧
    gradStd (19/216) ≠
      Real.sqrt ((((1:ℝ) - 11/18) ^ 2 + ((1/6:ℝ) - 11/18) ^ 2 + ((2/3:ℝ) - 11/18) ^ 2) / 3) := by
  refine ⟨c5_est, ?_⟩
  unfold gradStd
  intro heq
  rw [Real.sqrt_inj (by norm_num) (by norm_num)] at heq
  norm_num at heq

/-- C3: a range lookup beyond the built angular table returns the empty
envelope (first conjunct, as the spec states), but the consumer
getNeighborsInBB then calls .back() on that empty envelope - undefined
behaviour in the C++, a fault (none) in this embedding - instead of treating
the point as having no neighbors. -/
theorem C3_lookup_beyond_table_faults :
    getNearestNeighborLimits angularTable 100 = [] ∧
    nbbOf angularTable efFar (buildOrderedFeatureTable efFar [[0]]) 1 1 (3/5) 0 = none := by
  have hfloor : Int.floor ((100:ℚ) / NEIGH_IDX_PREC_RANGE_RES) = (500:ℤ) := by
    rw [show (100:ℚ) / NEIGH_IDX_PREC_RANGE_RES = 500 by norm_num [NEIGH_IDX_PREC_RANGE_RES]]
    norm_num
  have hlookup : getNearestNeighborLimits angularTable 100 = [] := by
    apply getNNL_angularTable_empty
    rw [hfloor]
    have := tableLen_le_490
    omega
  refine ⟨hlookup, ?_⟩
  unfold nbbOf
  dsimp only
  rw [show getRange efFar 0 = 100 from rfl]
  rw [hlookup]
  rfl

/-- C4: with selection enabled, a call on empty corner and surface batches
passes the sentinel cutoff -1.0 into estimateResolution, driving both
persistent resolution scalars to min - (max - min), strictly below their
configured minima - the claimed invariant that the scalars stay within
[min, max] after every call fails for empty batches. -/
theorem C4_empty_batch_resolution_out_of_bounds :
    selectFeatures stEnabled l1norm efEmptyBatch 0 [] 0 [] =
      some (stAfterEmpty, [], [], -(1/2), -(4/5)) ∧
    stAfterEmpty.resolution_corners < stAfterEmpty.resolution_corners_min ∧
    stAfterEmpty.resolution_surfs < stAfterEmpty.resolution_surfs_min := by
  refine ⟨?_, by norm_num [stAfterEmpty], by norm_num [stAfterEmpty]⟩
  unfold selectFeatures
  rw [if_neg (by simp [stEnabled])]
  unfold selectFeaturesFromCloudByGradient
  rw [if_pos rfl]
  simp only [stEnabled, estimateResolution, stAfterEmpty]
  norm_num

lemma c1_cells_empty : ∀ i, i < 26 → i ≠ 0 →
    cellEntry (buildOrderedFeatureTable efC1 [[0], [1]]) i 0 = -1 := by decide

/-- C1 (counterexample): for the grid efC1 the candidate P (index 0, range
0.7, range bucket 3) has the point Q at row 26 within Euclidean distance
sqrt(0.3524) < 0.6, but the row envelope of bucket 3 spans at most 25 rows,
so the windowed search of getNeighborsInBB returns no neighbors while the
brute-force exhaustive radius search returns Q: the claimed exact set
equality fails. -/
theorem C1_counterexample_close_range_miss :
    nbbOf angularTable efC1 (buildOrderedFeatureTable efC1 [[0], [1]]) 1 27 (3/5) 0 =
      some [] ∧
    bruteNeighbors efC1 (buildOrderedFeatureTable efC1 [[0], [1]]) (3/5) 0 =
      [⟨1/5, 0, 8/25⟩] ∧
    ([] : List V3) ≠ [(⟨1/5, 0, 8/25⟩ : V3)] := by
  refine ⟨?_, by decide, by decide⟩
  apply nbbOf_angular_empty efC1 _ (3/5) 0 0 3 27 (by decide) (by decide)
    (by have := four_le_tableLen; omega)
  intro i hi hir
  have h25 := maxVIdx_3_le_25
  exact c1_cells_empty i (by omega) hir

/-- C8: when selection is disabled by configuration, selectFeatures returns
the input corner and surface batches unmodified together with the last-known
resolution values and leaves the persistent state (in particular the two
resolution scalars) unchanged. -/
theorem C8_disabled_passthrough (st : FSState) (nrm : V3 → ℚ) (ef : ExtractedFeatures)
    (corner_count : ℕ) (indices_corners : List (List ℕ))
    (surf_count : ℕ) (indices_surfs : List (List ℕ))
    (h : st.features_selection_enabled = false) :
    selectFeatures st nrm ef corner_count indices_corners surf_count indices_surfs =
      some (st, ef.less_sharp_corners, ef.less_flat_surfs, st.resolution_corners,
        st.resolution_surfs) := by
  unfold selectFeatures
  rw [if_pos h]

theorem C8_disabled_passthrough_witness :
    stDisabled.features_selection_enabled = false ∧
    selectFeatures stDisabled l1norm efPass 0 [] 0 [] =
      some (stDisabled, efPass.less_sharp_corners, efPass.less_flat_surfs,
        stDisabled.resolution_corners, stDisabled.resolution_surfs) :=
  ⟨rfl, C8_disabled_passthrough stDisabled l1norm efPass 0 [] 0 [] rfl⟩

/-- C9: the angular-table construction loop terminates: there is a range
bucket whose envelope collapses to max_row_offset = 0 and
max_col_offset(0) = 0 (concretely bucket 489 at range 97.8 m), and the table
the constructor builds has finitely many (at most 490) buckets. -/
theorem C9_angular_table_construction_terminates :
    (∃ sample, stopCond sample) ∧ angularTable.length ≤ 490 :=
  ⟨exists_stopCond, by rw [angularTable_length]; exact tableLen_le_490⟩

open Real in
/-- C10: during angular-table construction, for every range bucket and every
row offset i up to max_row_offset, the quantity
k = range * tan(i * VFOV_RESOLUTION) is nonnegative and bounded by the
radius R, so the argument R*R - k*k passed to sqrt is nonnegative and every
stored envelope entry is a well-defined nonnegative integer. -/
theorem C10_sqrt_argument_in_range (sample i : ℕ) (h : i ≤ maxVIdx sample) :
    0 ≤ kVal sample i ∧ kVal sample i ≤ Rval ∧ 0 ≤ Rval ^ 2 - kVal sample i ^ 2 := by
  have hmain : 0 ≤ kVal sample i ∧ kVal sample i ≤ Rval := by
    rcases Nat.eq_zero_or_pos sample with h0 | hpos
    · subst h0
      unfold kVal rangeOf Rval
      norm_num
    · have hr : 0 < rangeOf sample := by
        unfold rangeOf
        have h1 : (1:ℝ) ≤ (sample : ℝ) := by exact_mod_cast hpos
        nlinarith
      have hθ : (i:ℝ) * VFOV_RESOLUTION ≤ arctan (Rval / rangeOf sample) := by
        have h1 : (i:ℝ) ≤ atan2p Rval (rangeOf sample) / VFOV_RESOLUTION := by
          calc (i:ℝ) ≤ (maxVIdx sample : ℝ) := by exact_mod_cast h
            _ ≤ atan2p Rval (rangeOf sample) / VFOV_RESOLUTION :=
              Nat.floor_le (div_nonneg (atan2p_nonneg Rval_pos.le hr.le) VFOV_pos.le)
        have h2 := (le_div_iff₀ VFOV_pos).mp h1
        unfold atan2p at h2
        rw [if_neg hr.ne.symm] at h2
        exact h2
      have hθ0 : 0 ≤ (i:ℝ) * VFOV_RESOLUTION := mul_nonneg (Nat.cast_nonneg i) VFOV_pos.le
      have hθlt : (i:ℝ) * VFOV_RESOLUTION < π / 2 :=
        lt_of_le_of_lt hθ (arctan_lt_pi_div_two _)
      have htan : Real.tan ((i:ℝ) * VFOV_RESOLUTION) ≤ Rval / rangeOf sample := by
        have hmem1 : ((i:ℝ) * VFOV_RESOLUTION) ∈ Set.Ioo (-(π / 2)) (π / 2) :=
          ⟨by have := Real.pi_pos; linarith, hθlt⟩
        have hmem2 := arctan_mem_Ioo (Rval / rangeOf sample)
        have hm := Real.strictMonoOn_tan.monotoneOn hmem1 hmem2 hθ
        rwa [tan_arctan] at hm
      have htan0 : 0 ≤ Real.tan ((i:ℝ) * VFOV_RESOLUTION) :=
        Real.tan_nonneg_of_nonneg_of_le_pi_div_two hθ0 hθlt.le
      constructor
      · unfold kVal
        exact mul_nonneg hr.le htan0
      · unfold kVal
        calc rangeOf sample * Real.tan ((i:ℝ) * VFOV_RESOLUTION)
            ≤ rangeOf sample * (Rval / rangeOf sample) :=
              mul_le_mul_of_nonneg_left htan hr.le
          _ = Rval := by field_simp
  refine ⟨hmain.1, hmain.2, ?_⟩
  have hsq := pow_le_pow_left₀ hmain.1 hmain.2 2
  linarith

theorem C10_sqrt_argument_in_range_witness :
    (0 : ℕ) ≤ maxVIdx 3 ∧
    (0 ≤ kVal 3 0 ∧ kVal 3 0 ≤ Rval ∧ 0 ≤ Rval ^ 2 - kVal 3 0 ^ 2) :=
  ⟨Nat.zero_le _, C10_sqrt_argument_in_range 3 0 (Nat.zero_le _)⟩

/-- C5 (amended): for every batch with at least one grouped feature, the
standard deviation returned by estimateGradients is the square root of the
sum of squared deviations of the normalized gradient magnitudes from their
mean (which is the population mean over the grouped features), divided by
the TOTAL feature count of the batch - not by the number of grouped
features as the original claim states. -/
theorem C5_stddev_radicand_formula (tbl : List (List (ℕ × ℕ))) (nrm : V3 → ℚ)
    (ef : ExtractedFeatures) (features_count : ℕ) (indices : List (List ℕ))
    (search_radius : ℚ) (stand : List ℕ) (sorted : List (ℕ × ℚ)) (mean stdSq : ℚ)
    (h : estimateGradients tbl nrm ef features_count indices search_radius =
      some (stand, sorted, mean, stdSq))
    (hn : 1 ≤ sorted.length) :
    mean = ((sorted.map fun pr => pr.2).sum) / (sorted.length : ℚ) ∧
    stdSq = ((sorted.map fun pr => (pr.2 - mean) ^ 2).sum) / (features_count : ℚ) ∧
    gradStd stdSq = Real.sqrt
      ((((sorted.map fun pr => (pr.2 - mean) ^ 2).sum : ℚ) : ℝ) / (features_count : ℝ)) := by
  unfold estimateGradients at h
  cases hm : getNeighborsInBB tbl ef indices search_radius with
  | none => rw [hm] at h; cases h
  | some nbMap =>
    rw [hm] at h
    dsimp only at h
    by_cases hguard : features_count < indices.flatten.length
    · rw [if_pos hguard] at h; cases h
    · rw [if_neg hguard] at h
      simp only [Option.some.injEq, Prod.mk.injEq] at h
      obtain ⟨h1, h2, h3, h4⟩ := h
      subst h1
      subst h2
      subst h3
      subst h4
      have hperm := sortDesc_perm ((gradPass nrm ef.cloud_filt nbMap indices.flatten).2.1.map
        fun pr => (pr.1, pr.2 / (gradPass nrm ef.cloud_filt nbMap indices.flatten).2.2))
      have hmean : ((sortDesc ((gradPass nrm ef.cloud_filt nbMap indices.flatten).2.1.map
          fun pr => (pr.1, pr.2 / (gradPass nrm ef.cloud_filt nbMap indices.flatten).2.2))).map
            fun pr => pr.2).sum = (((gradPass nrm ef.cloud_filt nbMap indices.flatten).2.1.map
          fun pr => (pr.1, pr.2 / (gradPass nrm ef.cloud_filt nbMap indices.flatten).2.2)).map
            fun pr => pr.2).sum := (hperm.map fun pr => pr.2).sum_eq
      have hlen := hperm.length_eq
      refine ⟨?_, ?_, ?_⟩
      · rw [hmean, hlen]
      · rw [(hperm.map fun pr => (pr.2 - _) ^ 2).sum_eq]
      · rw [(hperm.map fun pr => (pr.2 - _) ^ 2).sum_eq]
        unfold gradStd
        push_cast
        rfl

theorem C5_stddev_radicand_formula_witness :
    (estimateGradients tbl6 l1norm ef6 3 [[0], [1], [2]] (1/20) =
      some ([2], [(1, 1), (0, 1)], 1, 0)) ∧
    (1:ℕ) ≤ ([(1, 1), (0, 1)] : List (ℕ × ℚ)).length ∧
    gradStd 0 = Real.sqrt 0 := by
  have happ := C5_stddev_radicand_formula tbl6 l1norm ef6 3 [[0], [1], [2]] (1/20)
    [2] [(1, 1), (0, 1)] 1 0 (by decide) (by decide)
  refine ⟨by decide, by decide, ?_⟩
  rw [happ.2.2]
  norm_num

/-- Inversion of a successful estimateGradients run: the standalone list and
the sorted ranking are the standalone/grouped split of the flattened batch,
the ranking being a permutation of the per-index normalized gradient
records. -/
lemma estimateGradients_inv (tbl : List (List (ℕ × ℕ))) (nrm : V3 → ℚ)
    (ef : ExtractedFeatures) (features_count : ℕ) (indices : List (List ℕ))
    (search_radius : ℚ) (stand : List ℕ) (sorted : List (ℕ × ℚ)) (mean stdSq : ℚ)
    (h : estimateGradients tbl nrm ef features_count indices search_radius =
      some (stand, sorted, mean, stdSq)) :
    ∃ nbMap, getNeighborsInBB tbl ef indices search_radius = some nbMap ∧
      stand = indices.flatten.filter (fun i => !decide (0 < (lookupNb nbMap i).length)) ∧
      sorted.Perm ((indices.flatten.filter fun i => decide (0 < (lookupNb nbMap i).length)).map
        fun i => (i, gmag nrm ef.cloud_filt (lookupNb nbMap i) i /
          (gradPass nrm ef.cloud_filt nbMap indices.flatten).2.2)) ∧
      stand.length + sorted.length = indices.flatten.length := by
  unfold estimateGradients at h
  cases hm : getNeighborsInBB tbl ef indices search_radius with
  | none => rw [hm] at h; cases h
  | some nbMap =>
    rw [hm] at h
    dsimp only at h
    by_cases hguard : features_count < indices.flatten.length
    · rw [if_pos hguard] at h; cases h
    · rw [if_neg hguard] at h
      simp only [Option.some.injEq, Prod.mk.injEq] at h
      obtain ⟨h1, h2, h3, h4⟩ := h
      have heq : ((gradPass nrm ef.cloud_filt nbMap indices.flatten).2.1.map
          fun pr => (pr.1, pr.2 / (gradPass nrm ef.cloud_filt nbMap indices.flatten).2.2)) =
          ((indices.flatten.filter fun i => decide (0 < (lookupNb nbMap i).length)).map
            fun i => (i, gmag nrm ef.cloud_filt (lookupNb nbMap i) i /
              (gradPass nrm ef.cloud_filt nbMap indices.flatten).2.2)) := by
        rw [gradPass_grouped, List.map_map]
        rfl
      refine ⟨nbMap, rfl, ?_, ?_, ?_⟩
      · rw [← h1, gradPass_standalone]
      · rw [← h2, ← heq]
        exact sortDesc_perm _
      · rw [← h1, ← h2]
        have hp := (sortDesc_perm ((gradPass nrm ef.cloud_filt nbMap indices.flatten).2.1.map
          fun pr => (pr.1, pr.2 /
            (gradPass nrm ef.cloud_filt nbMap indices.flatten).2.2))).length_eq
        rw [hp, List.length_map]
        exact gradPass_length nrm ef.cloud_filt nbMap indices.flatten

/-- C6: for a nonempty batch whose cutoff access succeeds, the output cloud
of selectFeaturesFromCloudByGradient is exactly all standalone features
followed by the grouped features whose normalized gradient is at least the
cutoff; its size is #standalone + #(grouped with gradient >= cutoff), hence
at least #standalone; the reported gradient list assigns the synthetic value
1.0 to every standalone feature followed by the sorted grouped gradients;
the cutoff is one of the grouped gradients; and every retained point is an
unmodified cloud point of the batch. -/
theorem C6_selected_output_characterization (tbl : List (List (ℕ × ℕ))) (nrm : V3 → ℚ)
    (ef : ExtractedFeatures) (features_count : ℕ) (indices : List (List ℕ))
    (search_radius percentile : ℚ) (selected : List Pt) (gall : List ℚ)
    (mean stdSq cutoff : ℚ) (stand : List ℕ) (sorted : List (ℕ × ℚ)) (m2 s2 : ℚ)
    (hfc : features_count = indices.flatten.length)
    (hfc0 : features_count ≠ 0)
    (hest : estimateGradients tbl nrm ef features_count indices search_radius =
      some (stand, sorted, m2, s2))
    (hsel : selectFeaturesFromCloudByGradient tbl nrm ef features_count indices
      search_radius percentile = some (selected, gall, mean, stdSq, cutoff)) :
    selected = (stand.map fun i => ef.cloud_filt.getD i default) ++
        ((sorted.filter fun g => decide (cutoff ≤ g.2)).map fun g =>
          ef.cloud_filt.getD g.1 default) ∧
    selected.length = stand.length + (sorted.filter fun g => decide (cutoff ≤ g.2)).length ∧
    stand.length ≤ selected.length ∧
    gall = List.replicate stand.length 1 ++ sorted.map (fun g => g.2) ∧
    cutoff ∈ (sorted.map fun g => g.2) ∧
    (∀ q ∈ selected, ∃ i, i ∈ indices.flatten ∧ ef.cloud_filt.getD i default = q) := by
  obtain ⟨nbMap, hm, hstand, hperm, hlens⟩ :=
    estimateGradients_inv tbl nrm ef features_count indices search_radius
      stand sorted m2 s2 hest
  unfold selectFeaturesFromCloudByGradient at hsel
  rw [if_neg hfc0] at hsel
  rw [hest] at hsel
  dsimp only at hsel
  cases hif : (if 0 ≤ Int.floor (percentile * (sorted.length : ℚ))
      then sorted[(Int.floor (percentile * (sorted.length : ℚ))).toNat]? else none) with
  | none => rw [hif] at hsel; cases hsel
  | some cpr =>
    rw [hif] at hsel
    dsimp only at hsel
    simp only [Option.some.injEq, Prod.mk.injEq] at hsel
    obtain ⟨hs1, hs2, hs3, hs4, hs5⟩ := hsel
    have hcpr : cpr ∈ sorted := by
      by_cases h0 : 0 ≤ Int.floor (percentile * (sorted.length : ℚ))
      · rw [if_pos h0] at hif
        exact List.getElem?_mem hif
      · rw [if_neg h0] at hif
        cases hif
    subst hs5
    have hzero : features_count - stand.length - sorted.length = 0 := by omega
    refine ⟨hs1.symm, ?_, ?_, ?_, ?_, ?_⟩
    · rw [← hs1]
      simp
    · rw [← hs1]
      simp
    · rw [← hs2, hzero]
      rw [List.map_const']
      simp
    · exact List.mem_map_of_mem (fun g => g.2) hcpr
    · intro q hq
      rw [← hs1] at hq
      rcases List.mem_append.mp hq with hq1 | hq2
      · obtain ⟨i, hi, rfl⟩ := List.mem_map.mp hq1
        refine ⟨i, ?_, rfl⟩
        rw [hstand] at hi
        exact List.mem_of_mem_filter hi
      · obtain ⟨g, hgf, rfl⟩ := List.mem_map.mp hq2
        have hg : g ∈ sorted := List.mem_of_mem_filter hgf
        have hg2 := hperm.mem_iff.mp hg
        obtain ⟨i, hifil, hgi⟩ := List.mem_map.mp hg2
        refine ⟨g.1, ?_, rfl⟩
        rw [← hgi]
        exact List.mem_of_mem_filter hifil

theorem C6_selected_output_witness :
    (selectFeaturesFromCloudByGradient tbl6 l1norm ef6 3 [[0], [1], [2]] (1/20) (1/2) =
      some ([⟨1/10, 0, 0, 0⟩, ⟨1/25, 0, 0, 0⟩, ⟨1/100, 0, 0, 0⟩], [1, 1, 1], 1, 0, 1)) ∧
    ([2] : List ℕ).length ≤
      ([⟨1/10, 0, 0, 0⟩, ⟨1/25, 0, 0, 0⟩, ⟨1/100, 0, 0, 0⟩] : List Pt).length ∧
    (1 : ℚ) ∈ (([(1, 1), (0, 1)] : List (ℕ × ℚ)).map fun g => g.2) := by
  have happ := C6_selected_output_characterization tbl6 l1norm ef6 3 [[0], [1], [2]]
    (1/20) (1/2) [⟨1/10, 0, 0, 0⟩, ⟨1/25, 0, 0, 0⟩, ⟨1/100, 0, 0, 0⟩] [1, 1, 1] 1 0 1
    [2] [(1, 1), (0, 1)] 1 0 (by decide) (by decide) (by decide) (by decide)
  exact ⟨by decide, happ.2.2.1, happ.2.2.2.2.1⟩

/-- C7: for a batch with a grouped feature of positive magnitude, every
entry of the sorted ranking is the gradient magnitude of its feature (the
norm of the averaged sum of neighbor displacements) divided by the per-call
running maximum; every normalized gradient lies in [0, 1]; and absent ties
exactly one grouped feature attains exactly 1.0. -/
theorem C7_normalized_gradients_unit_interval (tbl : List (List (ℕ × ℕ))) (nrm : V3 → ℚ)
    (ef : ExtractedFeatures) (features_count : ℕ) (indices : List (List ℕ))
    (search_radius : ℚ) (nbMap : List (ℕ × List V3)) (stand : List ℕ)
    (sorted : List (ℕ × ℚ)) (mean stdSq : ℚ)
    (hnn : ∀ v, 0 ≤ nrm v)
    (hest : estimateGradients tbl nrm ef features_count indices search_radius =
      some (stand, sorted, mean, stdSq))
    (hnb : getNeighborsInBB tbl ef indices search_radius = some nbMap)
    (hmax : 0 < (gradPass nrm ef.cloud_filt nbMap indices.flatten).2.2) :
    (∀ pr ∈ sorted, pr.2 =
      gmag nrm ef.cloud_filt (lookupNb nbMap pr.1) pr.1 /
        (gradPass nrm ef.cloud_filt nbMap indices.flatten).2.2) ∧
    (∀ pr ∈ sorted, 0 ≤ pr.2 ∧ pr.2 ≤ 1) ∧
    ((sorted.Pairwise fun a b => a.2 ≠ b.2) →
      (sorted.countP fun pr => decide (pr.2 = 1)) = 1) := by
  obtain ⟨nbMap2, hm2, hstand, hperm, hlens⟩ :=
    estimateGradients_inv tbl nrm ef features_count indices search_radius
      stand sorted mean stdSq hest
  have hmm : nbMap2 = nbMap := Option.some.inj (hm2.symm.trans hnb)
  rw [hmm] at hstand hperm
  have hgrouped := gradPass_grouped nrm ef.cloud_filt nbMap indices.flatten
  have hmem : ∀ pr ∈ sorted, ∃ i, i ∈ (indices.flatten.filter fun i =>
      decide (0 < (lookupNb nbMap i).length)) ∧
      pr = (i, gmag nrm ef.cloud_filt (lookupNb nbMap i) i /
        (gradPass nrm ef.cloud_filt nbMap indices.flatten).2.2) := by
    intro pr hpr
    have := hperm.mem_iff.mp hpr
    obtain ⟨i, hi, hpi⟩ := List.mem_map.mp this
    exact ⟨i, hi, hpi.symm⟩
  have hg_le : ∀ i ∈ (indices.flatten.filter fun i =>
      decide (0 < (lookupNb nbMap i).length)),
      gmag nrm ef.cloud_filt (lookupNb nbMap i) i ≤
        (gradPass nrm ef.cloud_filt nbMap indices.flatten).2.2 := by
    intro i hi
    apply gradPass_le_max nrm ef.cloud_filt nbMap indices.flatten
      (i, gmag nrm ef.cloud_filt (lookupNb nbMap i) i)
    rw [hgrouped]
    exact List.mem_map_of_mem _ hi
  refine ⟨?_, ?_, ?_⟩
  · intro pr hpr
    obtain ⟨i, hi, rfl⟩ := hmem pr hpr
    rfl
  · intro pr hpr
    obtain ⟨i, hi, rfl⟩ := hmem pr hpr
    constructor
    · exact div_nonneg (hnn _) hmax.le
    · exact (div_le_one hmax).mpr (hg_le i hi)
  · intro hpw
    have hle := countP_le_one_of_pairwise_ne sorted 1 hpw
    have hge : 0 < sorted.countP fun pr => decide (pr.2 = 1) := by
      obtain ⟨pr0, hpr0, he0⟩ :=
        gradPass_max_mem nrm ef.cloud_filt nbMap indices.flatten hmax
      rw [hgrouped] at hpr0
      obtain ⟨i0, hi0, hpi0⟩ := List.mem_map.mp hpr0
      have hone : (i0, gmag nrm ef.cloud_filt (lookupNb nbMap i0) i0 /
          (gradPass nrm ef.cloud_filt nbMap indices.flatten).2.2) ∈ sorted := by
        apply hperm.mem_iff.mpr
        exact List.mem_map_of_mem _ hi0
      rw [List.countP_pos_iff]
      refine ⟨_, hone, ?_⟩
      simp only [decide_eq_true_eq]
      have hgm : gmag nrm ef.cloud_filt (lookupNb nbMap i0) i0 =
          (gradPass nrm ef.cloud_filt nbMap indices.flatten).2.2 := by
        rw [← he0, ← hpi0]
      rw [hgm]
      exact div_self hmax.ne.symm
    omega

theorem C7_normalized_gradients_witness :
    (∀ v, 0 ≤ l1norm v) ∧
    (estimateGradients tbl6 l1norm ef6 3 [[0], [1], [2]] (1/20) =
      some ([2], [(1, 1), (0, 1)], 1, 0)) ∧
    (0 < (gradPass l1norm ef6.cloud_filt
      [(0, [⟨1/25, 0, 0⟩]), (1, [⟨1/100, 0, 0⟩]), (2, [])]
      ([[0], [1], [2]] : List (List ℕ)).flatten).2.2) ∧
    (∀ pr ∈ ([(1, 1), (0, 1)] : List (ℕ × ℚ)), 0 ≤ pr.2 ∧ pr.2 ≤ 1) := by
  have happ := C7_normalized_gradients_unit_interval tbl6 l1norm ef6 3 [[0], [1], [2]]
    (1/20) [(0, [⟨1/25, 0, 0⟩]), (1, [⟨1/100, 0, 0⟩]), (2, [])] [2] [(1, 1), (0, 1)] 1 0
    l1norm_nonneg (by decide) (by decide) (by decide)
  exact ⟨l1norm_nonneg, by decide, by decide, happ.2.1⟩

theorem C1_windowed_subset_witness :
    (nbbOf tbl6 ef6 (buildOrderedFeatureTable ef6 [[0], [1], [2]]) ef6.width
      (buildOrderedFeatureTable ef6 [[0], [1], [2]]).length (1/20) 0 =
        some [⟨1/25, 0, 0⟩]) ∧
    (⟨1/25, 0, 0⟩ : V3) ∈ [(⟨1/25, 0, 0⟩ : V3)] ∧
    (⟨1/25, 0, 0⟩ : V3) ∈
      bruteNeighbors ef6 (buildOrderedFeatureTable ef6 [[0], [1], [2]]) (1/20) 0 :=
  ⟨by decide, by decide, C1_windowed_subset_bruteforce tbl6 ef6 [[0], [1], [2]] (1/20) 0
    [⟨1/25, 0, 0⟩] ⟨1/25, 0, 0⟩ (by decide) (by decide)⟩

end
